import Mathlib

/-!
Verification development for the aqua-chroma repository.

The Python sources are shallowly embedded below:

* `app/processor.py`  — `is_night`, `analyze_ocean_color` (K-Means strategy);
* `app/pipeline.py`   — `process_image_pipeline` and its call convention;
* `app/downloader.py` — `download_stitched_image`;
* `app/main.py`       — `run_analysis_and_persist`;
* `app/crud.py`       — `upsert_analysis_result`, `get_processed_timestamps`;
* `app/geo_utils.py`  — `mercator_y`, `latlon_to_final_pixel`, `apply_mask`.

External library calls (`cv2.kmeans` together with the `cv2.cvtColor` that turns
its centers into HSV, HTTP fetches, the file system) are modelled as oracle
inputs; all logic belonging to the repository itself is translated directly.
Machine floats used for the ratio metrics are modelled as rationals, and the
real-valued Mercator projection as real numbers.
-/

namespace AquaChroma

/-- A color triple `(r, g, b)`, each channel a `uint8` value. -/
abbrev RGB := Nat × Nat × Nat

/-- An HSV triple as produced by `cv2.cvtColor(..., cv2.COLOR_RGB2HSV)` on
`uint8` data: `h : 0..179`, `s, v : 0..255`. -/
structure HSV where
  h : Nat
  s : Nat
  v : Nat
deriving DecidableEq

instance : Inhabited HSV := ⟨⟨0, 0, 0⟩⟩

/-! ## Configuration (`app/config.py`) -/

/-- `config.NIGHT_START_HOUR = 16` (config.py line 74). -/
def NIGHT_START_HOUR : Nat := 16

/-- `config.NIGHT_END_HOUR = 7` (config.py line 75). -/
def NIGHT_END_HOUR : Nat := 7

/-- `config.CLOUD_COVERAGE_THRESHOLD = 0.5` (config.py line 78); declared as the
thick-cloud coverage threshold, referenced nowhere else in the sources. -/
def CLOUD_COVERAGE_THRESHOLD : ℚ := 1/2

/-- The K-Means strategy constants that `analyze_ocean_color` reads from the
config module: `config.K_MEANS_CLUSTERS`, `config.CLOUD_CLUSTER_SATURATION_MAX`,
`config.CLOUD_CLUSTER_VALUE_MIN`, `config.BLUE_CLUSTER_HUE_THRESHOLD`
(processor.py lines 33, 39, 49-50, 55, 64, 76).  Modelled from the spec: these
names are referenced by `processor.py` but no longer assigned in
`src/app/config.py`, so they are kept as parameters — the spec only says the
cloud test compares saturation/value against configured thresholds and the
blue test compares hue against a configured threshold, with a fixed `k`. -/
structure KMeansConfig where
  K : Nat
  satMax : Nat
  valMin : Nat
  hueThresh : Nat

/-! ## The classifier (`app/processor.py`, `analyze_ocean_color`) -/

/-- Oracle output of `cv2.kmeans(pixels_float, K, ...)` followed by the
`cv2.cvtColor` conversion of the cluster centers to HSV (processor.py
lines 38-42): one HSV center per cluster and one cluster label per ocean
pixel.  Both library calls are external (and `cv2.kmeans` is seeded
randomly), so their result is an input of the model. -/
structure KMeansOutcome where
  centersHSV : List HSV
  labels : List Nat

/-- `np.bincount` of a list of non-negative integers: entry `i` counts the
occurrences of `i`; the result has length `max + 1` (empty for an empty
input), as used on `labels.flatten()` at processor.py line 81. -/
def bincount (l : List Nat) : List Nat :=
  match l with
  | [] => []
  | _ :: _ => (List.range (l.foldr Nat.max 0 + 1)).map fun i => l.count i

/-- The guarded lookup
`int(pixel_counts[label]) if label != -1 and label < len(pixel_counts) else 0`
(processor.py lines 82-84).  Labels are `-1` or a cluster index, so the Python
negative-index subtlety never arises. -/
def classPixels (counts : List Nat) (label : Int) : Nat :=
  if label ≠ -1 ∧ label < (counts.length : Int) then counts.getD label.toNat 0 else 0

/-- The cloud-cluster test of processor.py line 55:
`s < config.CLOUD_CLUSTER_SATURATION_MAX and v > config.CLOUD_CLUSTER_VALUE_MIN`. -/
def cloudTest (cfg : KMeansConfig) (centers : List HSV) (i : Nat) : Bool :=
  decide ((centers.getD i default).s < cfg.satMax ∧ (centers.getD i default).v > cfg.valMin)

/-- The blue-water test of processor.py line 64:
`h > config.BLUE_CLUSTER_HUE_THRESHOLD`. -/
def blueTest (cfg : KMeansConfig) (centers : List HSV) (i : Nat) : Bool :=
  decide ((centers.getD i default).h > cfg.hueThresh)

/-- First identification round (processor.py lines 52-59): iterate over the
unassigned labels `0 .. K-1` in order and take the first cluster passing the
cloud test (`break` after the first hit). -/
def cloudSearch (cfg : KMeansConfig) (centers : List HSV) : Option Nat :=
  (List.range cfg.K).find? (cloudTest cfg centers)

/-- The unassigned labels remaining after the cloud round
(`unassigned_labels.remove(i)` at processor.py line 58). -/
def afterCloud (cfg : KMeansConfig) (centers : List HSV) : List Nat :=
  match cloudSearch cfg centers with
  | some c => (List.range cfg.K).erase c
  | none => List.range cfg.K

/-- Second identification round (processor.py lines 61-68): first remaining
cluster passing the blue test. -/
def blueSearch (cfg : KMeansConfig) (centers : List HSV) : Option Nat :=
  (afterCloud cfg centers).find? (blueTest cfg centers)

/-- The unassigned labels remaining after the blue round
(processor.py line 67). -/
def afterBlue (cfg : KMeansConfig) (centers : List HSV) : List Nat :=
  match blueSearch cfg centers with
  | some b => (afterCloud cfg centers).erase b
  | none => afterCloud cfg centers

/-- Third round (processor.py lines 70-73): the yellow label is the single
remaining unassigned cluster, if exactly one remains; otherwise it stays `-1`. -/
def yellowSearch (cfg : KMeansConfig) (centers : List HSV) : Int :=
  if (afterBlue cfg centers).length = 1 then ((afterBlue cfg centers).headD 0 : Int) else -1

/-- `some i ↦ i`, `none ↦ -1`: a label variable that a search left unassigned
keeps its initial value `-1` (processor.py line 46). -/
def optLabel : Option Nat → Int
  | some i => (i : Int)
  | none => -1

/-- The `(cloud_label, blue_label, yellow_label)` triple produced by the three
identification rounds of processor.py lines 46-73. -/
def identifyClusters (cfg : KMeansConfig) (centers : List HSV) : Int × Int × Int :=
  (optLabel (cloudSearch cfg centers), optLabel (blueSearch cfg centers),
    yellowSearch cfg centers)

/-- The dictionary returned by `analyze_ocean_color`.  The early returns at
processor.py lines 24 and 34 carry only the status and zero-valued ratio
fields; the `completed` return at lines 110-120 additionally carries the raw
pixel counts, hence the `Option Nat` count fields. -/
structure AnalysisResult where
  status : String
  seaBlueness : ℚ
  cloudCoverage : ℚ
  bluePercentage : ℚ
  yellowPercentage : ℚ
  bluePixels : Option Nat
  yellowPixels : Option Nat
  cloudPixels : Option Nat
deriving DecidableEq

/-- `analyze_ocean_color` (processor.py lines 17-120).

* `maskNonzeroCount` is `np.count_nonzero(ocean_mask)` (line 23);
* `oceanPixels` is the list `small_image[small_mask > 0]` of ocean pixels of
  the downscaled image (line 31), so `oceanPixels.length` is
  `total_ocean_pixels_small`;
* `km` is the oracle outcome of `cv2.kmeans` plus the HSV conversion of its
  centers (lines 38-42).

The debug prints and the saving of the classification map (lines 44-100) have
no effect on the returned dictionary and are omitted. -/
def analyze_ocean_color (cfg : KMeansConfig) (maskNonzeroCount : Nat)
    (oceanPixels : List RGB) (km : KMeansOutcome) : AnalysisResult :=
  if maskNonzeroCount = 0 then
    ⟨"无数据", 0, 0, 0, 0, none, none, none⟩
  else
    let totalOceanPixelsSmall := oceanPixels.length
    if totalOceanPixelsSmall < cfg.K then
      ⟨"像素不足", 0, 0, 0, 0, none, none, none⟩
    else
      let ids := identifyClusters cfg km.centersHSV
      let pixelCounts := bincount km.labels
      let bluePixels := classPixels pixelCounts ids.2.1
      let yellowPixels := classPixels pixelCounts ids.2.2
      let cloudPixels := classPixels pixelCounts ids.1
      let totalWaterPixels := bluePixels + yellowPixels
      let seaBluenessScore : ℚ :=
        if totalWaterPixels > 0 then (bluePixels : ℚ) / (totalWaterPixels : ℚ) else 0
      ⟨"completed", seaBluenessScore,
        (cloudPixels : ℚ) / (totalOceanPixelsSmall : ℚ),
        (bluePixels : ℚ) / (totalOceanPixelsSmall : ℚ),
        (yellowPixels : ℚ) / (totalOceanPixelsSmall : ℚ),
        some bluePixels, some yellowPixels, some cloudPixels⟩

/-! ## Night gate (`app/processor.py`, `is_night`) -/

/-- The local hour of an epoch-second timestamp in the fixed `UTC+8` time zone
used by `is_night` (processor.py lines 13-14):
`datetime.fromtimestamp(timestamp, tz=timezone(timedelta(hours=8))).hour`. -/
def localHour (timestamp : Nat) : Nat :=
  ((timestamp + 8 * 3600) / 3600) % 24

/-- `is_night` (processor.py lines 11-15):
`not (config.NIGHT_END_HOUR <= dt_local.hour < config.NIGHT_START_HOUR)`. -/
def is_night (timestamp : Nat) : Bool :=
  !(decide (NIGHT_END_HOUR ≤ localHour timestamp ∧ localHour timestamp < NIGHT_START_HOUR))

/-! ## The pipeline (`app/pipeline.py`, `process_image_pipeline`) -/

/-- The parameter names of `def analyze_ocean_color(image_array, ocean_mask,
output_dir)` (processor.py line 17); the signature has no `**kwargs`. -/
def analyzeOceanColorParamNames : List String :=
  ["image_array", "ocean_mask", "output_dir"]

/-- The keyword arguments that `process_image_pipeline` passes to
`analyze_ocean_color` (pipeline.py lines 100-105). -/
def pipelineAnalyzeCallKeywords : List String :=
  ["image_array", "ocean_mask", "output_dir", "hsv_ranges_override"]

/-- Python call binding for a signature without `*args`/`**kwargs`: the call
binds (does not raise `TypeError`) only if every keyword argument names a
declared parameter. -/
def pythonCallBinds (params kwargs : List String) : Bool :=
  kwargs.all fun k => params.contains k

/-- The inputs that determine one run of `process_image_pipeline`: whether the
GeoJSON boundary file exists (`create_ocean_mask` raises `FileNotFoundError`
otherwise, geo_utils.py lines 45-46), and the classifier inputs that the
masked image gives rise to. -/
structure PipelineEnv where
  geojsonPresent : Bool
  cfg : KMeansConfig
  maskNonzeroCount : Nat
  oceanPixels : List RGB
  km : KMeansOutcome

/-- The dictionary returned by `process_image_pipeline`: either the
classifier's dictionary, or the `{"status": "error"}` dictionary built by the
`except` handler (pipeline.py lines 107-109). -/
inductive PipelineResult where
  | ok (r : AnalysisResult)
  | error
deriving DecidableEq

/-- `analysis_result.get("status", "error")` as read by `main.py` line 145. -/
def PipelineResult.status : PipelineResult → String
  | ok r => r.status
  | error => "error"

/-- `analysis_result.get("seaBlueness")` (main.py line 146): present on every
dictionary the classifier returns, absent from the error dictionary. -/
def PipelineResult.seaBlueness : PipelineResult → Option ℚ
  | ok r => some r.seaBlueness
  | error => none

/-- `analysis_result.get("cloudCoverage")` (main.py line 147). -/
def PipelineResult.cloudCoverage : PipelineResult → Option ℚ
  | ok r => some r.cloudCoverage
  | error => none

/-- `process_image_pipeline` (pipeline.py lines 39-111).  Steps 1-3 (upscale,
CLAHE color balance, mask creation and application) only shape the classifier
inputs carried by `env`; the two ways the `try` block can raise are the
missing boundary file in step 3 and the `TypeError` from the step-4 call
`processor.analyze_ocean_color(..., hsv_ranges_override=...)`, whose keyword
arguments must bind to the parameters of processor.py line 17.  Any exception
is caught and replaced by `{"status": "error"}`. -/
def process_image_pipeline (env : PipelineEnv) : PipelineResult :=
  if !env.geojsonPresent then
    .error
  else if !(pythonCallBinds analyzeOceanColorParamNames pipelineAnalyzeCallKeywords) then
    .error
  else
    .ok (analyze_ocean_color env.cfg env.maskNonzeroCount env.oceanPixels env.km)

/-! ## The downloader (`app/downloader.py`, `download_stitched_image`) -/

/-- A 256x256 tile image as a pixel function `(x, y) ↦ color`. -/
def Tile := Nat → Nat → RGB

/-- `Image.new('RGB', (256, 256), color='black')`, the placeholder pasted for
a failed tile (downloader.py lines 68, 70). -/
def blackTile : Tile := fun _ _ => (0, 0, 0)

/-- The inputs of one `download_stitched_image` run.  `gridW`/`gridH` are
`len(x_range)`/`len(y_range)`, the tile-range extents that downloader.py
lines 35-37 derive from `config.TARGET_AREA` via `deg_to_tile_num`;
`fetch j i` is the oracle outcome of the HTTP request for the tile in grid
column `j`, row `i` (`none` for a non-200 status or a network exception); the
crop box coordinates are the values `latlon_to_pixel_on_stitched` computes at
downloader.py lines 76-78. -/
structure DownloadEnv where
  gridW : Nat
  gridH : Nat
  fetch : Nat → Nat → Option Tile
  cropLeft : Nat
  cropTop : Nat
  cropRight : Nat
  cropBottom : Nat

/-- The tile occupying grid cell `(i, j)` of the stitched image: the fetched
tile on success, the black placeholder otherwise (downloader.py lines 61-70). -/
def tileAt (env : DownloadEnv) (i j : Nat) : Tile :=
  (env.fetch j i).getD blackTile

/-- The pixel of the stitched mosaic at `(px, py)`: each tile is pasted at
offset `(j * 256, i * 256)` (downloader.py lines 65, 68, 70). -/
def stitchedPixel (env : DownloadEnv) (px py : Nat) : RGB :=
  tileAt env (py / 256) (px / 256) (px % 256) (py % 256)

/-- `downloaded_count`: the number of grid cells whose fetch succeeded
(downloader.py lines 41, 66). -/
def downloadedCount (env : DownloadEnv) : Nat :=
  ((List.range env.gridH).map fun i =>
    (List.range env.gridW).countP fun j => (env.fetch j i).isSome).sum

/-- An in-memory raster with its size, the result of `stitched_image.crop`. -/
structure CroppedImage where
  width : Nat
  height : Nat
  pixel : Nat → Nat → RGB

/-- `stitched_image.crop((px_west, px_north, px_east, px_south))`
(downloader.py lines 78-79). -/
def cropStitched (env : DownloadEnv) : CroppedImage :=
  ⟨env.cropRight - env.cropLeft, env.cropBottom - env.cropTop,
    fun x y => stitchedPixel env (env.cropLeft + x) (env.cropTop + y)⟩

/-- `download_stitched_image` (downloader.py lines 31-82): `None` exactly when
zero tiles downloaded, otherwise the mosaic cropped to the bounding box. -/
def download_stitched_image (env : DownloadEnv) : Option CroppedImage :=
  if downloadedCount env = 0 then none else some (cropStitched env)

/-! ## Persistence (`app/crud.py`) and the orchestrator (`app/main.py`) -/

/-- One row of the `analysis_results` table (models.py lines 5-12, minus the
surrogate `id`): `timestamp` is the unique key, the two metric columns are
nullable. -/
structure Record where
  timestamp : Nat
  status : String
  sea_blueness : Option ℚ
  cloud_coverage : Option ℚ
deriving DecidableEq

/-- `get_result_by_timestamp` (crud.py lines 5-7): the first row matching the
timestamp. -/
def get_result_by_timestamp (store : List Record) (ts : Nat) : Option Record :=
  store.find? fun r => r.timestamp = ts

/-- The `schemas.AnalysisResultCreate` payload handed to the upsert
(schemas.py lines 6-10).  `timestamp` and `status` are always set by
`run_analysis_and_persist`; a metric field is `none` when the branch never
assigned it (a Pydantic unset field, excluded by
`model_dump(exclude_unset=True)` on the update path) and `some v` when the
branch set it to the nullable value `v`. -/
structure AnalysisResultCreate where
  timestamp : Nat
  status : String
  sea_blueness : Option (Option ℚ)
  cloud_coverage : Option (Option ℚ)
deriving DecidableEq

/-- The `setattr` update loop of crud.py lines 28-30 over
`model_dump(exclude_unset=True)`: set fields overwrite the row, unset
metric fields leave the old values in place. -/
def applyUpdate (old : Record) (d : AnalysisResultCreate) : Record :=
  ⟨d.timestamp, d.status, d.sea_blueness.getD old.sea_blueness,
    d.cloud_coverage.getD old.cloud_coverage⟩

/-- The insert path of crud.py lines 33-35,
`models.AnalysisResult(**result_data.model_dump())`: an unset metric field
takes its Pydantic default `None`. -/
def newRecord (d : AnalysisResultCreate) : Record :=
  ⟨d.timestamp, d.status, d.sea_blueness.getD none, d.cloud_coverage.getD none⟩

/-- `upsert_analysis_result` (crud.py lines 17-41): update the row with this
timestamp if one exists, else insert a new row.  The store never holds two
rows with one timestamp (uniqueness of the `timestamp` column), so updating
every matching row coincides with updating the found one. -/
def upsert_analysis_result (store : List Record) (d : AnalysisResultCreate) :
    List Record :=
  if (get_result_by_timestamp store d.timestamp).isSome then
    store.map fun x => if x.timestamp = d.timestamp then applyUpdate x d else x
  else
    store ++ [newRecord d]

/-- `get_processed_timestamps` (crud.py lines 13-15): the timestamps already
present in the store, which the scheduled cycle subtracts from the fetched
timestamp list (main.py lines 177, 192). -/
def get_processed_timestamps (store : List Record) : List Nat :=
  store.map fun r => r.timestamp

/-- The oracle inputs of one `run_analysis_and_persist` run: the downloader's
inputs and, when an image comes back, the pipeline's inputs. -/
structure MainEnv where
  dl : DownloadEnv
  pipe : PipelineEnv

/-- What one `run_analysis_and_persist` call produces: the store after the
upsert, the persisted status, and whether the downloader was invoked at all. -/
structure RunOutcome where
  store : List Record
  status : String
  downloadAttempted : Bool
deriving DecidableEq

/-- `run_analysis_and_persist` (main.py lines 120-164).  The night gate comes
first and skips the download entirely; a `None` from the downloader becomes
status `download_failed`; otherwise the pipeline result's status and metrics
are taken (`analysis_result.get`, main.py lines 144-148).  In every branch
the resulting `analysis_data` is upserted (main.py lines 150-152). -/
def run_analysis_and_persist (ts : Nat) (env : MainEnv) (store : List Record) :
    RunOutcome :=
  if is_night ts then
    ⟨upsert_analysis_result store ⟨ts, "night", none, none⟩, "night", false⟩
  else
    match download_stitched_image env.dl with
    | none =>
        ⟨upsert_analysis_result store ⟨ts, "download_failed", none, none⟩,
          "download_failed", true⟩
    | some _ =>
        let r := process_image_pipeline env.pipe
        ⟨upsert_analysis_result store
          ⟨ts, r.status, some r.seaBlueness, some r.cloudCoverage⟩,
          r.status, true⟩

/-! ## Geography (`app/geo_utils.py`) -/

/-- `config.TARGET_AREA`-style geographic bounds (config.py lines 66-71). -/
structure GeoBounds where
  north : ℝ
  south : ℝ
  west : ℝ
  east : ℝ

/-- `mercator_y` (geo_utils.py lines 14-17):
`log(tan(pi/4 + radians(lat)/2))`. -/
noncomputable def mercator_y (latDeg : ℝ) : ℝ :=
  Real.log (Real.tan (Real.pi / 4 + (latDeg * Real.pi / 180) / 2))

/-- Python's `int()` on a float: truncation toward zero. -/
noncomputable def pyInt (x : ℝ) : ℤ :=
  if 0 ≤ x then ⌊x⌋ else ⌈x⌉

/-- `latlon_to_final_pixel` (geo_utils.py lines 19-37): longitude mapped
linearly, latitude interpolated linearly in Mercator-Y space, both scaled to
the raster size `(height, width)` and truncated with `int()`. -/
noncomputable def latlon_to_final_pixel (lat lon : ℝ) (bounds : GeoBounds)
    (height width : Nat) : ℤ × ℤ :=
  let lonFraction := (lon - bounds.west) / (bounds.east - bounds.west)
  let pixelX := pyInt (lonFraction * width)
  let yMercNorth := mercator_y bounds.north
  let yMercSouth := mercator_y bounds.south
  let yMercLat := mercator_y lat
  let latFraction := (yMercLat - yMercNorth) / (yMercSouth - yMercNorth)
  let pixelY := pyInt (latFraction * height)
  (pixelX, pixelY)

/-! ## Mask application (`app/geo_utils.py`, `apply_mask`) -/

/-- Channelwise `cv2.bitwise_and` of two color pixels. -/
def landRGB (p q : RGB) : RGB :=
  (Nat.land p.1 q.1, Nat.land p.2.1 q.2.1, Nat.land p.2.2 q.2.2)

/-- `cv2.cvtColor(..., cv2.COLOR_RGB2BGR)` on one pixel: channel reversal. -/
def rgb2bgr (p : RGB) : RGB := (p.2.2, p.2.1, p.1)

/-- `cv2.cvtColor(..., cv2.COLOR_BGR2RGB)` on one pixel: channel reversal. -/
def bgr2rgb (p : RGB) : RGB := (p.2.2, p.2.1, p.1)

/-- `cv2.bitwise_and(src1, src2, mask=mask)`: where the mask is non-zero the
bitwise conjunction of the sources, elsewhere zero (black). -/
def bitwise_and_masked (src1 src2 : Nat → Nat → RGB) (mask : Nat → Nat → Nat) :
    Nat → Nat → RGB :=
  fun x y => if mask x y ≠ 0 then landRGB (src1 x y) (src2 x y) else (0, 0, 0)

/-- `apply_mask` (geo_utils.py lines 68-75) for a single-channel mask (the
`len(mask.shape) > 2` branch does not fire): convert the RGB image to BGR,
`bitwise_and` it with itself under the mask, convert back to RGB. -/
def apply_mask (image : Nat → Nat → RGB) (mask : Nat → Nat → Nat) :
    Nat → Nat → RGB :=
  let cvImage := fun x y => rgb2bgr (image x y)
  let maskedBGR := bitwise_and_masked cvImage cvImage mask
  fun x y => bgr2rgb (maskedBGR x y)

/-! ## Derived count expressions of the classifier

Named forms of the three `classPixels` applications of processor.py
lines 82-84, used to state theorems about `analyze_ocean_color`. -/

/-- `blue_pixels` as computed at processor.py line 82. -/
def bluePixelCount (cfg : KMeansConfig) (km : KMeansOutcome) : Nat :=
  classPixels (bincount km.labels) (identifyClusters cfg km.centersHSV).2.1

/-- `yellow_pixels` as computed at processor.py line 83. -/
def yellowPixelCount (cfg : KMeansConfig) (km : KMeansOutcome) : Nat :=
  classPixels (bincount km.labels) (identifyClusters cfg km.centersHSV).2.2

/-- `cloud_pixels` as computed at processor.py line 84. -/
def cloudPixelCount (cfg : KMeansConfig) (km : KMeansOutcome) : Nat :=
  classPixels (bincount km.labels) (identifyClusters cfg km.centersHSV).1

/-! ## Concrete scenario inputs -/

/-- A plausible valuation of the four K-Means config constants: `k = 3`, the
cloud saturation/value cut-offs of the config's `CLOUD` HSV box (config.py
lines 85-88), hue threshold 85 (the low end of the `BLUE_WATER` box). -/
def cfgScenario : KMeansConfig := ⟨3, 40, 128, 85⟩

/-- Ten pure-white ocean pixels: an all-white ocean-restricted image. -/
def pixWhite : List RGB := List.replicate 10 (255, 255, 255)

/-- K-Means on ten identical white pixels: every center is white, whose HSV
is `(0, 0, 255)`, and every pixel lands in cluster `0`. -/
def kmWhite : KMeansOutcome :=
  ⟨[⟨0, 0, 255⟩, ⟨0, 0, 255⟩, ⟨0, 0, 255⟩], List.replicate 10 0⟩

/-- Five white, three pure-blue and two brown `(150, 100, 50)` ocean pixels. -/
def pixMix : List RGB :=
  List.replicate 5 (255, 255, 255) ++ List.replicate 3 (0, 0, 255) ++
    List.replicate 2 (150, 100, 50)

/-- K-Means separating `pixMix` into its three colors; the HSV centers are
the conversions of white, pure blue and the brown `(150, 100, 50)`. -/
def kmMix : KMeansOutcome :=
  ⟨[⟨0, 0, 255⟩, ⟨120, 255, 255⟩, ⟨15, 170, 150⟩],
    List.replicate 5 0 ++ List.replicate 3 1 ++ List.replicate 2 2⟩

/-- Ten pure-black ocean pixels: an entirely black ocean-restricted raster. -/
def pixBlack : List RGB := List.replicate 10 (0, 0, 0)

/-- K-Means on ten identical black pixels: every center is black, HSV
`(0, 0, 0)`, all pixels in cluster `0`. -/
def kmBlack : KMeansOutcome :=
  ⟨[⟨0, 0, 0⟩, ⟨0, 0, 0⟩, ⟨0, 0, 0⟩], List.replicate 10 0⟩

/-- A concrete pipeline environment: boundary file present, plausible
config, a 100-pixel mask. -/
def envPipe : PipelineEnv := ⟨true, cfgScenario, 100, pixWhite, kmWhite⟩

/-- A concrete 2x2 download environment in which the tile at grid cell
`(0, 0)` fails and the other three tiles succeed. -/
def envDl : DownloadEnv :=
  ⟨2, 2, fun j i => if j = 0 ∧ i = 0 then none else some fun _ _ => (200, 200, 200),
    0, 0, 512, 512⟩

/-- A concrete download environment in which every tile fetch fails. -/
def envDlFail : DownloadEnv := ⟨2, 2, fun _ _ => none, 0, 0, 512, 512⟩

/-- A concrete orchestrator environment built from `envDl` and `envPipe`. -/
def envMain : MainEnv := ⟨envDl, envPipe⟩

/-- A concrete orchestrator environment whose downloads all fail. -/
def envMainFail : MainEnv := ⟨envDlFail, envPipe⟩

/-- Concrete geographic bounds in the style of `config.TARGET_AREA`. -/
def boundsScenario : GeoBounds := ⟨31, 29, 121, 122⟩

/-! ## Shared facts -/

set_option maxRecDepth 8000

/-- The step-4 call of `process_image_pipeline` never binds (pipeline.py
passes `hsv_ranges_override`, processor.py line 17 declares no such
parameter), so the `try` block always raises and the handler always returns
the error dictionary. -/
theorem process_image_pipeline_eq_error (env : PipelineEnv) :
    process_image_pipeline env = PipelineResult.error := by
  have hb : pythonCallBinds analyzeOceanColorParamNames pipelineAnalyzeCallKeywords = false := by
    decide
  obtain ⟨g, cfg, m, p, km⟩ := env
  cases g <;> simp [process_image_pipeline, hb]

/-! ## Claim C3 -/

/-- Claim C3: for every input whose ocean mask selects at least
`K_MEANS_CLUSTERS` pixels (boundary file present), `process_image_pipeline`
returns the error result: its call to `analyze_ocean_color` passes the
keyword argument `hsv_ranges_override`, which that function's signature does
not accept, so the call raises `TypeError` and the handler yields status
`error`; no pipeline run ever has status `completed`. -/
theorem pipeline_call_type_error (env : PipelineEnv)
    (hgeo : env.geojsonPresent = true)
    (hmask : env.cfg.K ≤ env.maskNonzeroCount) :
    process_image_pipeline env = PipelineResult.error ∧
    (process_image_pipeline env).status = "error" ∧
    pythonCallBinds analyzeOceanColorParamNames pipelineAnalyzeCallKeywords = false ∧
    ("hsv_ranges_override" ∈ pipelineAnalyzeCallKeywords ∧
      "hsv_ranges_override" ∉ analyzeOceanColorParamNames) ∧
    ∀ e : PipelineEnv, (process_image_pipeline e).status ≠ "completed" := by
  refine ⟨process_image_pipeline_eq_error env, ?_, by decide, ⟨by decide, by decide⟩, ?_⟩
  · rw [process_image_pipeline_eq_error env]
    rfl
  · intro e h
    rw [process_image_pipeline_eq_error e] at h
    exact absurd h (by decide)

/-- Witness for C3: the pipeline run at a concrete environment (boundary
file present, 100-pixel mask, `k = 3`) ends in the error result. -/
theorem pipeline_call_type_error_witness :
    process_image_pipeline envPipe = PipelineResult.error ∧
    (process_image_pipeline envPipe).status = "error" :=
  ⟨(pipeline_call_type_error envPipe rfl (by decide)).1,
    (pipeline_call_type_error envPipe rfl (by decide)).2.1⟩

/-! ## Claim C7 -/

/-- Claim C7: a timestamp whose local hour (fixed `UTC+8` zone) lies outside
`[NIGHT_END_HOUR, NIGHT_START_HOUR)` is assigned status `night` with the
downloader never invoked; a timestamp whose local hour lies inside the
interval is not assigned status `night`. -/
theorem night_gate (ts : Nat) (env : MainEnv) (store : List Record) :
    (localHour ts < NIGHT_END_HOUR ∨ NIGHT_START_HOUR ≤ localHour ts →
      (run_analysis_and_persist ts env store).status = "night" ∧
      (run_analysis_and_persist ts env store).downloadAttempted = false) ∧
    (NIGHT_END_HOUR ≤ localHour ts → localHour ts < NIGHT_START_HOUR →
      (run_analysis_and_persist ts env store).status ≠ "night") := by
  constructor
  · intro h
    have hn : is_night ts = true := by
      simp only [is_night, NIGHT_END_HOUR, NIGHT_START_HOUR] at *
      simp only [Bool.not_eq_true', decide_eq_false_iff_not]
      omega
    unfold run_analysis_and_persist
    rw [hn]
    exact ⟨rfl, rfl⟩
  · intro h1 h2
    have hn : is_night ts = false := by
      simp only [is_night, NIGHT_END_HOUR, NIGHT_START_HOUR] at *
      simp only [Bool.not_eq_false', decide_eq_true_iff]
      omega
    unfold run_analysis_and_persist
    rw [hn]
    simp only [Bool.false_eq_true, if_false]
    cases download_stitched_image env.dl with
    | none => exact (by decide : ("download_failed" : String) ≠ "night")
    | some img =>
        show (process_image_pipeline env.pipe).status ≠ "night"
        rw [process_image_pipeline_eq_error env.pipe]
        decide

/-- Witness for C7: local hour 3 (timestamp 68400) is classified `night`
with no download; local hour 12 (timestamp 14400) is not `night`. -/
theorem night_gate_witness :
    (run_analysis_and_persist 68400 envMain []).status = "night" ∧
    (run_analysis_and_persist 68400 envMain []).downloadAttempted = false ∧
    (run_analysis_and_persist 14400 envMain []).status ≠ "night" :=
  ⟨((night_gate 68400 envMain []).1 (by decide)).1,
    ((night_gate 68400 envMain []).1 (by decide)).2,
    (night_gate 14400 envMain []).2 (by decide) (by decide)⟩

/-! ## Claim C8 -/

/-- Claim C8: every failed tile fetch is replaced in place by a fully black
256x256 tile; the builder returns no image iff zero tiles succeeded; with at
least one success the stitched mosaic is cropped to the bounding box and
returned. -/
theorem mosaic_partial_failure (env : DownloadEnv) :
    (∀ i j, i < env.gridH → j < env.gridW → env.fetch j i = none →
      ∀ u v, u < 256 → v < 256 →
        stitchedPixel env (j * 256 + u) (i * 256 + v) = (0, 0, 0)) ∧
    (download_stitched_image env = none ↔ downloadedCount env = 0) ∧
    (0 < downloadedCount env →
      download_stitched_image env = some (cropStitched env)) := by
  refine ⟨?_, ?_, ?_⟩
  · intro i j _ _ hf u v hu hv
    unfold stitchedPixel tileAt
    have h1 : (j * 256 + u) / 256 = j := by omega
    have h2 : (i * 256 + v) / 256 = i := by omega
    rw [h1, h2, hf]
    rfl
  · unfold download_stitched_image
    by_cases h : downloadedCount env = 0 <;> simp [h]
  · intro h
    unfold download_stitched_image
    rw [if_neg (by omega)]

/-- Witness for C8 at the spec's 2x2 example: tile `(0, 0)` fails and the
other three succeed, giving `downloadedCount = 3`, a black top-left
quadrant, and a cropped mosaic that is still returned. -/
theorem mosaic_partial_failure_witness :
    downloadedCount envDl = 3 ∧
    stitchedPixel envDl (0 * 256 + 5) (0 * 256 + 7) = (0, 0, 0) ∧
    download_stitched_image envDl = some (cropStitched envDl) :=
  ⟨by decide,
    (mosaic_partial_failure envDl).1 0 0 (by decide) (by decide) rfl 5 7
      (by decide) (by decide),
    (mosaic_partial_failure envDl).2.2 (by decide)⟩

/-! ## Claim C10 -/

/-- Claim C10: `apply_mask` leaves every pixel with a non-zero mask value
unchanged and zeroes (blackens) every pixel with mask value zero. -/
theorem apply_mask_pixelwise (image : Nat → Nat → RGB) (mask : Nat → Nat → Nat)
    (x y : Nat) :
    (mask x y ≠ 0 → apply_mask image mask x y = image x y) ∧
    (mask x y = 0 → apply_mask image mask x y = (0, 0, 0)) := by
  have hland : ∀ p : RGB, landRGB p p = p := by
    rintro ⟨r, g, b⟩
    simp only [landRGB, Prod.mk.injEq]
    exact ⟨Nat.and_self r, Nat.and_self g, Nat.and_self b⟩
  have hbgr : ∀ p : RGB, bgr2rgb (rgb2bgr p) = p := by
    rintro ⟨r, g, b⟩
    rfl
  constructor
  · intro h
    unfold apply_mask bitwise_and_masked
    rw [if_pos h, hland, hbgr]
  · intro h
    unfold apply_mask bitwise_and_masked
    rw [if_neg (by simp [h])]
    rfl

/-- Witness for C10 at a concrete image and mask. -/
theorem apply_mask_pixelwise_witness :
    apply_mask (fun _ _ => (10, 20, 30)) (fun x _ => x % 2) 1 0 = (10, 20, 30) ∧
    apply_mask (fun _ _ => (10, 20, 30)) (fun x _ => x % 2) 0 0 = (0, 0, 0) :=
  ⟨(apply_mask_pixelwise (fun _ _ => (10, 20, 30)) (fun x _ => x % 2) 1 0).1 (by decide),
    (apply_mask_pixelwise (fun _ _ => (10, 20, 30)) (fun x _ => x % 2) 0 0).2 rfl⟩

/-! ## Counting lemmas for the classifier -/

/-- Every member of a `Nat` list is bounded by its `foldr Nat.max 0`. -/
lemma le_foldr_max (l : List Nat) : ∀ x ∈ l, x ≤ l.foldr Nat.max 0 := by
  induction l with
  | nil => simp
  | cons a t ih =>
      intro x hx
      rcases List.mem_cons.mp hx with rfl | hx
      · exact Nat.le_max_left _ _
      · exact le_trans (ih x hx) (Nat.le_max_right _ _)

/-- A value above the maximum never occurs. -/
lemma count_eq_zero_of_max_lt (l : List Nat) (n : Nat)
    (h : l.foldr Nat.max 0 < n) : l.count n = 0 := by
  rw [List.count_eq_zero]
  intro hmem
  exact absurd (le_foldr_max l n hmem) (by omega)

/-- `classPixels` at label `-1` yields `0` (the guarded lookup's else). -/
lemma classPixels_neg_one (counts : List Nat) : classPixels counts (-1) = 0 := by
  unfold classPixels
  rw [if_neg]
  simp

/-- `classPixels` of a `bincount` at a genuine label is the label's
occurrence count: the bincount bound check exactly compensates for labels
beyond the largest occurring one. -/
lemma classPixels_bincount (l : List Nat) (n : Nat) :
    classPixels (bincount l) ((n : Nat) : Int) = l.count n := by
  unfold classPixels bincount
  cases l with
  | nil => simp
  | cons a t =>
      by_cases h : n < (a :: t).foldr Nat.max 0 + 1
      · rw [List.length_map, List.length_range]
        rw [if_pos ⟨by omega, by exact_mod_cast h⟩]
        rw [Int.toNat_natCast]
        rw [List.getD_eq_getElem?_getD, List.getElem?_map, List.getElem?_range h]
        rfl
      · rw [List.length_map, List.length_range]
        rw [if_neg (by omega)]
        exact (count_eq_zero_of_max_lt _ _ (by omega)).symm

/-- Counts of two distinct values never exceed the length. -/
lemma count_two_le (l : List Nat) (a b : Nat) (hab : a ≠ b) :
    l.count a + l.count b ≤ l.length := by
  induction l with
  | nil => simp
  | cons x t ih =>
      simp only [List.count_cons, List.length_cons, beq_iff_eq]
      split_ifs <;> omega

/-- Counts of three pairwise distinct values never exceed the length. -/
lemma count_three_le (l : List Nat) (a b c : Nat)
    (hab : a ≠ b) (hac : a ≠ c) (hbc : b ≠ c) :
    l.count a + l.count b + l.count c ≤ l.length := by
  induction l with
  | nil => simp
  | cons x t ih =>
      simp only [List.count_cons, List.length_cons, beq_iff_eq]
      split_ifs <;> omega

/-- When every element is below 3, the counts of 0, 1 and 2 exhaust the
length. -/
lemma count_sum_of_lt_three (l : List Nat) (h : ∀ x ∈ l, x < 3) :
    l.count 0 + l.count 1 + l.count 2 = l.length := by
  induction l with
  | nil => simp
  | cons x t ih =>
      have hx : x < 3 := h x (List.mem_cons_self x t)
      have ih2 := ih fun y hy => h y (List.mem_cons_of_mem x hy)
      simp only [List.count_cons, List.length_cons, beq_iff_eq]
      interval_cases x <;> simp <;> omega

/-! ## Structure of the three identification rounds -/

/-- The unassigned list after the cloud round has no duplicates. -/
lemma afterCloud_nodup (cfg : KMeansConfig) (centers : List HSV) :
    (afterCloud cfg centers).Nodup := by
  unfold afterCloud
  cases cloudSearch cfg centers with
  | none => exact List.nodup_range cfg.K
  | some c => exact (List.nodup_range cfg.K).erase c

/-- The unassigned list after the cloud round only holds labels `< K`. -/
lemma afterCloud_subset (cfg : KMeansConfig) (centers : List HSV) :
    afterCloud cfg centers ⊆ List.range cfg.K := by
  unfold afterCloud
  cases cloudSearch cfg centers with
  | none => exact fun x hx => hx
  | some c => exact List.erase_subset c (List.range cfg.K)

/-- The unassigned list after the blue round is contained in the one after
the cloud round. -/
lemma afterBlue_subset (cfg : KMeansConfig) (centers : List HSV) :
    afterBlue cfg centers ⊆ afterCloud cfg centers := by
  unfold afterBlue
  cases blueSearch cfg centers with
  | none => exact fun x hx => hx
  | some b => exact List.erase_subset b (afterCloud cfg centers)

/-- A found blue label differs from the found cloud label: the cloud round
removed the cloud label from the unassigned list the blue round scans. -/
lemma blue_ne_cloud {cfg : KMeansConfig} {centers : List HSV} {c0 b0 : Nat}
    (hc : cloudSearch cfg centers = some c0)
    (hb : blueSearch cfg centers = some b0) : b0 ≠ c0 := by
  have hmem := List.mem_of_find?_eq_some hb
  unfold afterCloud at hmem
  rw [hc] at hmem
  exact ((List.Nodup.mem_erase_iff (List.nodup_range cfg.K)).mp hmem).1

/-- An assigned yellow label comes from a singleton unassigned list. -/
lemma yellow_cases {cfg : KMeansConfig} {centers : List HSV}
    (h : yellowSearch cfg centers ≠ -1) :
    ∃ y0 : Nat, yellowSearch cfg centers = (y0 : Int) ∧
      afterBlue cfg centers = [y0] := by
  unfold yellowSearch at h ⊢
  by_cases hl : (afterBlue cfg centers).length = 1
  · obtain ⟨a, ha⟩ := List.length_eq_one.mp hl
    refine ⟨a, ?_, ha⟩
    rw [if_pos hl, ha]
    rfl
  · rw [if_neg hl] at h
    exact absurd rfl h

/-- A yellow label differs from a found blue label and lies after the cloud
round's list. -/
lemma yellow_ne_blue {cfg : KMeansConfig} {centers : List HSV} {b0 y0 : Nat}
    (hb : blueSearch cfg centers = some b0)
    (hy : afterBlue cfg centers = [y0]) :
    y0 ≠ b0 ∧ y0 ∈ afterCloud cfg centers := by
  have hymem : y0 ∈ afterBlue cfg centers := by
    rw [hy]
    exact List.mem_singleton_self y0
  unfold afterBlue at hymem
  rw [hb] at hymem
  exact (List.Nodup.mem_erase_iff (afterCloud_nodup cfg centers)).mp hymem

/-- Membership after the cloud round separates from a found cloud label. -/
lemma afterCloud_ne_cloud {cfg : KMeansConfig} {centers : List HSV} {c0 x : Nat}
    (hc : cloudSearch cfg centers = some c0)
    (hx : x ∈ afterCloud cfg centers) : x ≠ c0 ∧ x < cfg.K := by
  unfold afterCloud at hx
  rw [hc] at hx
  have h2 := (List.Nodup.mem_erase_iff (List.nodup_range cfg.K)).mp hx
  exact ⟨h2.1, List.mem_range.mp h2.2⟩

/-- The three class counts of processor.py lines 82-84 never exceed the
number of labelled pixels: assigned labels are pairwise distinct (each round
removes its hit from the unassigned list) and an unassigned label counts 0. -/
lemma identify_counts_le (cfg : KMeansConfig) (centers : List HSV)
    (labels : List Nat) :
    cloudPixelCount cfg ⟨centers, labels⟩ + bluePixelCount cfg ⟨centers, labels⟩ +
      yellowPixelCount cfg ⟨centers, labels⟩ ≤ labels.length := by
  unfold cloudPixelCount bluePixelCount yellowPixelCount identifyClusters
  dsimp only
  rcases hc : cloudSearch cfg centers with _ | c0
  · rcases hb : blueSearch cfg centers with _ | b0
    · by_cases hy : yellowSearch cfg centers = -1
      · simp [optLabel, hy, classPixels_neg_one]
      · obtain ⟨y0, hy0, _⟩ := yellow_cases hy
        simp only [optLabel, hy0, classPixels_neg_one, classPixels_bincount]
        have := List.count_le_length y0 labels
        omega
    · by_cases hy : yellowSearch cfg centers = -1
      · simp only [optLabel, hy, classPixels_neg_one, classPixels_bincount]
        have := List.count_le_length b0 labels
        omega
      · obtain ⟨y0, hy0, hyl⟩ := yellow_cases hy
        have hne := (yellow_ne_blue hb hyl).1
        simp only [optLabel, hy0, classPixels_neg_one, classPixels_bincount]
        have := count_two_le labels b0 y0 (Ne.symm hne)
        omega
  · rcases hb : blueSearch cfg centers with _ | b0
    · by_cases hy : yellowSearch cfg centers = -1
      · simp only [optLabel, hy, classPixels_neg_one, classPixels_bincount]
        have := List.count_le_length c0 labels
        omega
      · obtain ⟨y0, hy0, hyl⟩ := yellow_cases hy
        have hymem : y0 ∈ afterCloud cfg centers := by
          refine afterBlue_subset cfg centers ?_
          rw [hyl]
          exact List.mem_singleton_self y0
        have hne := (afterCloud_ne_cloud hc hymem).1
        simp only [optLabel, hy0, classPixels_neg_one, classPixels_bincount]
        have := count_two_le labels c0 y0 (Ne.symm hne)
        omega
    · have hbc := blue_ne_cloud hc hb
      by_cases hy : yellowSearch cfg centers = -1
      · simp only [optLabel, hy, classPixels_neg_one, classPixels_bincount]
        have := count_two_le labels c0 b0 (Ne.symm hbc)
        omega
      · obtain ⟨y0, hy0, hyl⟩ := yellow_cases hy
        have hyb := yellow_ne_blue hb hyl
        have hyc := (afterCloud_ne_cloud hc hyb.2).1
        simp only [optLabel, hy0, classPixels_neg_one, classPixels_bincount]
        have := count_three_le labels c0 b0 y0 (Ne.symm hbc) (Ne.symm hyc) (Ne.symm hyb.1)
        omega

/-- With `k = 3`, every pixel labelled below `k` and all three identities
assigned, the three class counts partition the labelled pixels exactly. -/
lemma identify_counts_eq (cfg : KMeansConfig) (centers : List HSV)
    (labels : List Nat) (hK : cfg.K = 3) (hlab : ∀ x ∈ labels, x < cfg.K)
    (hcn : (identifyClusters cfg centers).1 ≠ -1)
    (hbn : (identifyClusters cfg centers).2.1 ≠ -1)
    (hyn : (identifyClusters cfg centers).2.2 ≠ -1) :
    cloudPixelCount cfg ⟨centers, labels⟩ + bluePixelCount cfg ⟨centers, labels⟩ +
      yellowPixelCount cfg ⟨centers, labels⟩ = labels.length := by
  unfold identifyClusters at hcn hbn hyn
  dsimp only at hcn hbn hyn
  unfold cloudPixelCount bluePixelCount yellowPixelCount identifyClusters
  dsimp only
  rcases hc : cloudSearch cfg centers with _ | c0
  · rw [hc] at hcn
    exact absurd rfl hcn
  rcases hb : blueSearch cfg centers with _ | b0
  · rw [hb] at hbn
    exact absurd rfl hbn
  obtain ⟨y0, hy0, hyl⟩ := yellow_cases hyn
  have hbc := blue_ne_cloud hc hb
  have hyb := yellow_ne_blue hb hyl
  have hyc := afterCloud_ne_cloud hc hyb.2
  have hcK : c0 < cfg.K := List.mem_range.mp (List.mem_of_find?_eq_some hc)
  have hbK : b0 < cfg.K :=
    (afterCloud_ne_cloud hc (List.mem_of_find?_eq_some hb)).2
  have hc3 : c0 < 3 := hK ▸ hcK
  have hb3 : b0 < 3 := hK ▸ hbK
  have hy3 : y0 < 3 := hK ▸ hyc.2
  have hsum := count_sum_of_lt_three labels (fun x hx => hK ▸ hlab x hx)
  have hbc0 : b0 ≠ c0 := hbc
  have hyb0 : y0 ≠ b0 := hyb.1
  have hyc0 : y0 ≠ c0 := hyc.1
  simp only [optLabel, hy0, classPixels_bincount]
  interval_cases c0 <;> interval_cases b0 <;> interval_cases y0 <;> omega

/-- The shape of every `completed` result (processor.py lines 102-120): once
the two early-return guards fail, `analyze_ocean_color` returns the completed
dictionary built from the three class counts. -/
lemma analyze_completed_eq (cfg : KMeansConfig) (mnz : Nat) (pixels : List RGB)
    (km : KMeansOutcome) (h1 : mnz ≠ 0) (h2 : cfg.K ≤ pixels.length) :
    analyze_ocean_color cfg mnz pixels km =
      ⟨"completed",
        (if bluePixelCount cfg km + yellowPixelCount cfg km > 0 then
          (bluePixelCount cfg km : ℚ) /
            ((bluePixelCount cfg km + yellowPixelCount cfg km : Nat) : ℚ)
        else 0),
        (cloudPixelCount cfg km : ℚ) / (pixels.length : ℚ),
        (bluePixelCount cfg km : ℚ) / (pixels.length : ℚ),
        (yellowPixelCount cfg km : ℚ) / (pixels.length : ℚ),
        some (bluePixelCount cfg km), some (yellowPixelCount cfg km),
        some (cloudPixelCount cfg km)⟩ := by
  unfold analyze_ocean_color
  rw [if_neg h1]
  dsimp only
  rw [if_neg (not_lt.mpr h2)]
  rfl

/-! ## Claim C1 -/

/-- Claim C1 (code bug): the thick-cloud short-circuit does not exist in
`analyze_ocean_color` — on the all-white scenario (`cloudCoverage = 1`, above
the configured `CLOUD_COVERAGE_THRESHOLD`) the status is `completed`, not
`thick_cloud`; indeed no input at all yields status `thick_cloud`. -/
theorem thick_cloud_never_triggered :
    (analyze_ocean_color cfgScenario 100 pixWhite kmWhite).status = "completed" ∧
    (analyze_ocean_color cfgScenario 100 pixWhite kmWhite).cloudCoverage = 1 ∧
    CLOUD_COVERAGE_THRESHOLD <
      (analyze_ocean_color cfgScenario 100 pixWhite kmWhite).cloudCoverage ∧
    (analyze_ocean_color cfgScenario 100 pixWhite kmWhite).status ≠ "thick_cloud" ∧
    ∀ (cfg : KMeansConfig) (mnz : Nat) (pixels : List RGB) (km : KMeansOutcome),
      (analyze_ocean_color cfg mnz pixels km).status ≠ "thick_cloud" := by
  have hcov : (analyze_ocean_color cfgScenario 100 pixWhite kmWhite).cloudCoverage
      = ((10 : ℕ) : ℚ) / ((10 : ℕ) : ℚ) := rfl
  refine ⟨by decide, ?_, ?_, by decide, ?_⟩
  · rw [hcov]
    norm_num
  · rw [hcov]
    norm_num [CLOUD_COVERAGE_THRESHOLD]
  · intro cfg mnz pixels km
    unfold analyze_ocean_color
    by_cases hm : mnz = 0
    · rw [if_pos hm]
      decide
    · rw [if_neg hm]
      dsimp only
      by_cases h2 : pixels.length < cfg.K
      · rw [if_pos h2]
        decide
      · rw [if_neg h2]
        exact (by decide : ("completed" : String) ≠ "thick_cloud")

/-! ## Claim C2 -/

/-- Claim C2 counterexample: a completed classification with 5 cloud, 3 blue
and 2 yellow pixels out of 10 ocean pixels has `seaBlueness = 3/5` — the
blue count over the non-cloud water count — and not `3/10`, the blue count
over the total ocean pixel count that the claim states. -/
theorem seaBlueness_counterexample :
    (analyze_ocean_color cfgScenario 100 pixMix kmMix).status = "completed" ∧
    (analyze_ocean_color cfgScenario 100 pixMix kmMix).bluePixels = some 3 ∧
    (analyze_ocean_color cfgScenario 100 pixMix kmMix).cloudPixels = some 5 ∧
    pixMix.length = 10 ∧
    (analyze_ocean_color cfgScenario 100 pixMix kmMix).seaBlueness = 3 / 5 ∧
    (analyze_ocean_color cfgScenario 100 pixMix kmMix).seaBlueness ≠
      ((3 : ℕ) : ℚ) / ((10 : ℕ) : ℚ) := by
  have h : (analyze_ocean_color cfgScenario 100 pixMix kmMix).seaBlueness
      = ((3 : ℕ) : ℚ) / ((5 : ℕ) : ℚ) := rfl
  refine ⟨by decide, by decide, by decide, by decide, ?_, ?_⟩
  · rw [h]
    norm_num
  · rw [h]
    norm_num

/-- Claim C2 (amended): for every completed classification, `seaBlueness`
equals `bluePixels / (bluePixels + yellowPixels)` (cloud pixels excluded
from the denominator; 0 when no water pixel exists), while the ratio the
claim describes, `bluePixels / totalOceanPixels`, is returned as
`bluePercentage` instead. -/
theorem seaBlueness_formula (cfg : KMeansConfig) (mnz : Nat) (pixels : List RGB)
    (km : KMeansOutcome) (h1 : mnz ≠ 0) (h2 : cfg.K ≤ pixels.length) :
    (analyze_ocean_color cfg mnz pixels km).status = "completed" ∧
    ∀ b y : Nat,
      (analyze_ocean_color cfg mnz pixels km).bluePixels = some b →
      (analyze_ocean_color cfg mnz pixels km).yellowPixels = some y →
      ((analyze_ocean_color cfg mnz pixels km).seaBlueness =
        if b + y > 0 then (b : ℚ) / ((b + y : Nat) : ℚ) else 0) ∧
      (analyze_ocean_color cfg mnz pixels km).bluePercentage =
        (b : ℚ) / (pixels.length : ℚ) := by
  rw [analyze_completed_eq cfg mnz pixels km h1 h2]
  refine ⟨rfl, ?_⟩
  intro b y hb hy
  have hb' := Option.some.inj hb
  have hy' := Option.some.inj hy
  subst hb' hy'
  exact ⟨rfl, rfl⟩

/-- Witness for the amended C2 at the mixed scenario: 3 blue and 2 yellow
pixels of 10 give `seaBlueness = 3/5` and `bluePercentage = 3/10`. -/
theorem seaBlueness_formula_witness :
    (analyze_ocean_color cfgScenario 100 pixMix kmMix).status = "completed" ∧
    (analyze_ocean_color cfgScenario 100 pixMix kmMix).seaBlueness =
      (if 3 + 2 > 0 then ((3 : ℕ) : ℚ) / (((3 + 2 : ℕ)) : ℚ) else 0) ∧
    (analyze_ocean_color cfgScenario 100 pixMix kmMix).bluePercentage =
      ((3 : ℕ) : ℚ) / ((pixMix.length : ℕ) : ℚ) :=
  ⟨(seaBlueness_formula cfgScenario 100 pixMix kmMix (by decide) (by decide)).1,
    ((seaBlueness_formula cfgScenario 100 pixMix kmMix (by decide) (by decide)).2
      3 2 (by decide) (by decide)).1,
    ((seaBlueness_formula cfgScenario 100 pixMix kmMix (by decide) (by decide)).2
      3 2 (by decide) (by decide)).2⟩

/-! ## Claim C5 -/

/-- Claim C5 counterexample: on ten black pixels whose single cluster passes
neither the cloud test (its value 0 exceeds no threshold) nor the blue test
(its hue 0 exceeds no threshold), the classification still completes while
all three class counts are 0, so
`cloudPixels + bluePixels + yellowPixels = 0 ≠ 10 = totalOceanPixels`. -/
theorem partition_counterexample :
    (analyze_ocean_color cfgScenario 100 pixBlack kmBlack).status = "completed" ∧
    (analyze_ocean_color cfgScenario 100 pixBlack kmBlack).cloudPixels = some 0 ∧
    (analyze_ocean_color cfgScenario 100 pixBlack kmBlack).bluePixels = some 0 ∧
    (analyze_ocean_color cfgScenario 100 pixBlack kmBlack).yellowPixels = some 0 ∧
    pixBlack.length = 10 ∧
    0 + 0 + 0 ≠ 10 := by
  refine ⟨by decide, by decide, by decide, by decide, by decide, by decide⟩

/-- Claim C5 (amended): for every completed classification (pixels labelled
into the `k` clusters), `cloudPixels + bluePixels + yellowPixels` is at most
`totalOceanPixels`, with equality exactly guaranteed when `k = 3` and all
three cluster identities were assigned; an unidentified cluster leaves the
sum short. -/
theorem partition_bound (cfg : KMeansConfig) (mnz : Nat) (pixels : List RGB)
    (km : KMeansOutcome) (h1 : mnz ≠ 0) (h2 : cfg.K ≤ pixels.length)
    (hlen : km.labels.length = pixels.length)
    (hlab : ∀ l ∈ km.labels, l < cfg.K) :
    (analyze_ocean_color cfg mnz pixels km).status = "completed" ∧
    ∀ c b y : Nat,
      (analyze_ocean_color cfg mnz pixels km).cloudPixels = some c →
      (analyze_ocean_color cfg mnz pixels km).bluePixels = some b →
      (analyze_ocean_color cfg mnz pixels km).yellowPixels = some y →
      c + b + y ≤ pixels.length ∧
      (cfg.K = 3 →
        (identifyClusters cfg km.centersHSV).1 ≠ -1 →
        (identifyClusters cfg km.centersHSV).2.1 ≠ -1 →
        (identifyClusters cfg km.centersHSV).2.2 ≠ -1 →
        c + b + y = pixels.length) := by
  rw [analyze_completed_eq cfg mnz pixels km h1 h2]
  refine ⟨rfl, ?_⟩
  intro c b y hc hb hy
  have hc' := Option.some.inj hc
  have hb' := Option.some.inj hb
  have hy' := Option.some.inj hy
  subst hc' hb' hy'
  constructor
  · have h := identify_counts_le cfg km.centersHSV km.labels
    rw [hlen] at h
    exact h
  · intro hK hcn hbn hyn
    have h := identify_counts_eq cfg km.centersHSV km.labels hK hlab hcn hbn hyn
    rw [hlen] at h
    exact h

/-- Witness for the amended C5 at the mixed scenario: counts 5 + 3 + 2 both
bound and exactly exhaust the 10 ocean pixels. -/
theorem partition_bound_witness :
    (analyze_ocean_color cfgScenario 100 pixMix kmMix).status = "completed" ∧
    5 + 3 + 2 ≤ pixMix.length ∧
    5 + 3 + 2 = pixMix.length :=
  ⟨(partition_bound cfgScenario 100 pixMix kmMix (by decide) (by decide) rfl
      (by decide)).1,
    ((partition_bound cfgScenario 100 pixMix kmMix (by decide) (by decide) rfl
      (by decide)).2 5 3 2 (by decide) (by decide) (by decide)).1,
    ((partition_bound cfgScenario 100 pixMix kmMix (by decide) (by decide) rfl
      (by decide)).2 5 3 2 (by decide) (by decide) (by decide)).2 rfl
      (by decide) (by decide) (by decide)⟩

/-! ## Claim C6 -/

/-- Claim C6 counterexample: an entirely black ocean-restricted raster with
a non-empty mask is not short-circuited to `no_data` — the classification
runs to completion. -/
theorem no_data_all_black_counterexample :
    pixBlack.all (fun p => p = ((0 : Nat), (0 : Nat), (0 : Nat))) = true ∧
    (analyze_ocean_color cfgScenario 100 pixBlack kmBlack).status = "completed" ∧
    (analyze_ocean_color cfgScenario 100 pixBlack kmBlack).status ≠ "无数据" ∧
    (analyze_ocean_color cfgScenario 100 pixBlack kmBlack).status ≠ "no_data" := by
  refine ⟨by decide, by decide, by decide, by decide⟩

/-- Claim C6 (amended): a mask selecting zero pixels stops classification at
once with the code's no-data status `"无数据"` and no count fields; a
non-empty mask never yields the no-data status, whatever the raster's
content (in particular an all-black raster is not detected). -/
theorem no_data_on_empty_mask (cfg : KMeansConfig) (pixels : List RGB)
    (km : KMeansOutcome) :
    analyze_ocean_color cfg 0 pixels km =
      ⟨"无数据", 0, 0, 0, 0, none, none, none⟩ ∧
    ∀ mnz : Nat, mnz ≠ 0 →
      (analyze_ocean_color cfg mnz pixels km).status ≠ "无数据" ∧
      (analyze_ocean_color cfg mnz pixels km).status ≠ "no_data" := by
  constructor
  · unfold analyze_ocean_color
    rw [if_pos rfl]
  · intro mnz hmnz
    unfold analyze_ocean_color
    rw [if_neg hmnz]
    dsimp only
    by_cases h2 : pixels.length < cfg.K
    · rw [if_pos h2]
      exact ⟨by decide, by decide⟩
    · rw [if_neg h2]
      exact ⟨(by decide : ("completed" : String) ≠ "无数据"),
        (by decide : ("completed" : String) ≠ "no_data")⟩

/-- Witness for the amended C6: the empty-mask early return at a concrete
input, and a non-empty mask input whose status is not the no-data status. -/
theorem no_data_on_empty_mask_witness :
    analyze_ocean_color cfgScenario 0 pixBlack kmBlack =
      ⟨"无数据", 0, 0, 0, 0, none, none, none⟩ ∧
    (analyze_ocean_color cfgScenario 100 pixBlack kmBlack).status ≠ "无数据" :=
  ⟨(no_data_on_empty_mask cfgScenario pixBlack kmBlack).1,
    ((no_data_on_empty_mask cfgScenario pixBlack kmBlack).2 100 (by decide)).1⟩

/-! ## Persistence lemmas (`app/crud.py`) -/

/-- `find?` skips a prefix in which nothing matches. -/
lemma find?_append_of_none {α} (p : α → Bool) (l1 l2 : List α)
    (h : l1.find? p = none) : (l1 ++ l2).find? p = l2.find? p := by
  induction l1 with
  | nil => rfl
  | cons a t ih =>
      cases hpa : p a with
      | true =>
          rw [List.find?_cons_of_pos t hpa] at h
          cases h
      | false =>
          rw [List.find?_cons_of_neg t (by simp [hpa])] at h
          simp only [List.cons_append]
          rw [List.find?_cons_of_neg _ (by simp [hpa])]
          exact ih h

/-- When no row holds the payload's timestamp, the upsert appends the fresh
row built by `newRecord`, and the lookup finds it. -/
lemma upsert_insert_found (store : List Record) (d : AnalysisResultCreate)
    (h : get_result_by_timestamp store d.timestamp = none) :
    get_result_by_timestamp (upsert_analysis_result store d) d.timestamp =
      some (newRecord d) := by
  unfold upsert_analysis_result
  rw [h]
  rw [if_neg (by simp)]
  unfold get_result_by_timestamp at h ⊢
  rw [find?_append_of_none _ _ _ h]
  exact List.find?_cons_of_pos _ (by simp [newRecord])

/-- When a row holds the payload's timestamp, the upsert rewrites it through
`applyUpdate`, and the lookup finds the updated row. -/
lemma upsert_update_found (store : List Record) (d : AnalysisResultCreate)
    (h : (get_result_by_timestamp store d.timestamp).isSome) :
    ∃ old : Record,
      get_result_by_timestamp (upsert_analysis_result store d) d.timestamp =
        some (applyUpdate old d) := by
  unfold upsert_analysis_result
  rw [if_pos h]
  unfold get_result_by_timestamp at h ⊢
  induction store with
  | nil => simp at h
  | cons a t ih =>
      simp only [List.map_cons]
      by_cases ha : a.timestamp = d.timestamp
      · refine ⟨a, ?_⟩
        rw [if_pos ha]
        exact List.find?_cons_of_pos _ (by simp [applyUpdate])
      · rw [if_neg ha]
        rw [List.find?_cons_of_neg _ (by simp [ha])]
        refine ih ?_
        rw [List.find?_cons_of_neg _ (by simp [ha])] at h
        exact h

/-- After any upsert the lookup finds a row carrying the payload's timestamp
and status (on the update path the metric columns may retain old values
because of `exclude_unset`). -/
lemma upsert_status_found (store : List Record) (d : AnalysisResultCreate) :
    ∃ r : Record,
      get_result_by_timestamp (upsert_analysis_result store d) d.timestamp = some r ∧
      r.timestamp = d.timestamp ∧ r.status = d.status := by
  by_cases h : (get_result_by_timestamp store d.timestamp).isSome
  · obtain ⟨old, hf⟩ := upsert_update_found store d h
    exact ⟨applyUpdate old d, hf, rfl, rfl⟩
  · have hn : get_result_by_timestamp store d.timestamp = none :=
      Option.not_isSome_iff_eq_none.mp h
    exact ⟨newRecord d, upsert_insert_found store d hn, rfl, rfl⟩

/-- A found record's timestamp belongs to the processed set. -/
lemma mem_processed_of_found {store : List Record} {ts : Nat} {r : Record}
    (h : get_result_by_timestamp store ts = some r) :
    ts ∈ get_processed_timestamps store := by
  unfold get_result_by_timestamp at h
  have hmem := List.mem_of_find?_eq_some h
  have hp := @List.find?_some Record (fun x : Record => decide (x.timestamp = ts)) r store h
  have hts : r.timestamp = ts := of_decide_eq_true hp
  unfold get_processed_timestamps
  exact hts ▸ List.mem_map_of_mem (fun x => x.timestamp) hmem

/-! ## Claim C4 -/

/-- Claim C4 counterexample: at daytime timestamp 14400 with every tile
fetch failing, the run does surface `download_failed` — but a record with
that status IS persisted, and the timestamp lands in the processed set the
next cycle reads, contradicting the claim's "no record persisted / eligible
for retry". -/
theorem download_failed_persists_counterexample :
    is_night 14400 = false ∧
    downloadedCount envDlFail = 0 ∧
    (run_analysis_and_persist 14400 envMainFail []).status = "download_failed" ∧
    (run_analysis_and_persist 14400 envMainFail []).store =
      [⟨14400, "download_failed", none, none⟩] ∧
    get_processed_timestamps (run_analysis_and_persist 14400 envMainFail []).store =
      [14400] := by
  refine ⟨by decide, by decide, by decide, by decide, by decide⟩

/-- Claim C4 (amended): for every daytime timestamp whose mosaic download
yields zero successful tiles, the run surfaces `download_failed` AND a
record with that status is upserted (a fresh row with null metrics when the
timestamp had no row yet), so the timestamp is present in the processed set
the next cycle reads and is not retried. -/
theorem download_failed_persists (ts : Nat) (env : MainEnv) (store : List Record)
    (hday : is_night ts = false) (hdl : downloadedCount env.dl = 0) :
    (run_analysis_and_persist ts env store).status = "download_failed" ∧
    (∃ r : Record,
      get_result_by_timestamp (run_analysis_and_persist ts env store).store ts =
        some r ∧ r.timestamp = ts ∧ r.status = "download_failed") ∧
    (get_result_by_timestamp store ts = none →
      get_result_by_timestamp (run_analysis_and_persist ts env store).store ts =
        some ⟨ts, "download_failed", none, none⟩) ∧
    ts ∈ get_processed_timestamps (run_analysis_and_persist ts env store).store := by
  have hdn : download_stitched_image env.dl = none := by
    unfold download_stitched_image
    rw [if_pos hdl]
  unfold run_analysis_and_persist
  rw [hday, hdn]
  refine ⟨rfl, ?_, ?_, ?_⟩
  · exact upsert_status_found store ⟨ts, "download_failed", none, none⟩
  · intro hnone
    exact upsert_insert_found store ⟨ts, "download_failed", none, none⟩ hnone
  · obtain ⟨r, hf, _, _⟩ := upsert_status_found store ⟨ts, "download_failed", none, none⟩
    exact mem_processed_of_found hf

/-- Witness for the amended C4 at timestamp 14400 with all fetches failing. -/
theorem download_failed_persists_witness :
    (run_analysis_and_persist 14400 envMainFail []).status = "download_failed" ∧
    get_result_by_timestamp (run_analysis_and_persist 14400 envMainFail []).store 14400 =
      some ⟨14400, "download_failed", none, none⟩ ∧
    14400 ∈ get_processed_timestamps (run_analysis_and_persist 14400 envMainFail []).store :=
  ⟨(download_failed_persists 14400 envMainFail [] (by decide) (by decide)).1,
    (download_failed_persists 14400 envMainFail [] (by decide) (by decide)).2.2.1 rfl,
    (download_failed_persists 14400 envMainFail [] (by decide) (by decide)).2.2.2⟩

/-! ## Claim C9 -/

/-- `mercator_y` is strictly increasing on the Mercator-valid latitude
range: the angle `pi/4 + radians(lat)/2` stays in `(0, pi/2)` where `tan` is
positive and strictly increasing, and `log` is strictly increasing on
positives. -/
lemma mercator_y_lt {a b : ℝ} (ha : -90 < a) (hab : a < b) (hb : b < 90) :
    mercator_y a < mercator_y b := by
  have hpi := Real.pi_pos
  have hea : Real.pi / 4 + (a * Real.pi / 180) / 2 = (a + 90) * Real.pi / 360 := by
    ring
  have heb : Real.pi / 4 + (b * Real.pi / 180) / 2 = (b + 90) * Real.pi / 360 := by
    ring
  have h1 : 0 < Real.pi / 4 + (a * Real.pi / 180) / 2 := by
    rw [hea]
    have h := mul_pos (show (0:ℝ) < a + 90 by linarith) hpi
    linarith
  have h2 : Real.pi / 4 + (b * Real.pi / 180) / 2 < Real.pi / 2 := by
    rw [heb]
    have h := mul_lt_mul_of_pos_right (show b + 90 < (180:ℝ) by linarith) hpi
    linarith
  have h3 : Real.pi / 4 + (a * Real.pi / 180) / 2 <
      Real.pi / 4 + (b * Real.pi / 180) / 2 := by
    have h := mul_lt_mul_of_pos_right hab hpi
    linarith
  unfold mercator_y
  apply Real.log_lt_log
  · exact Real.tan_pos_of_pos_of_lt_pi_div_two h1 (lt_trans h3 h2)
  · exact Real.tan_lt_tan_of_nonneg_of_lt_pi_div_two (le_of_lt h1) h2 h3

/-- Python's `int()` of the real number `0`. -/
lemma pyInt_zero : pyInt 0 = 0 := by
  unfold pyInt
  rw [if_pos le_rfl]
  exact Int.floor_zero

/-- Python's `int()` of a whole non-negative number. -/
lemma pyInt_natCast (n : Nat) : pyInt ((n : ℕ) : ℝ) = n := by
  unfold pyInt
  rw [if_pos (Nat.cast_nonneg n)]
  exact Int.floor_natCast n

/-- Claim C9: for bounds with `north > south` (inside the Mercator-valid
latitude range) and `east > west`, `latlon_to_final_pixel` sends the
north-west corner to `(0, 0)` and the south-east corner to
`(width, height)` — here exactly, with no rounding error: the longitude
fraction is linear and the latitude fraction is interpolated linearly in
Mercator-Y space, so the corner fractions are exactly 0 and 1. -/
theorem corner_projection (bounds : GeoBounds) (height width : Nat)
    (hs : -90 < bounds.south) (hsn : bounds.south < bounds.north)
    (hn : bounds.north < 90) (hwe : bounds.west < bounds.east) :
    latlon_to_final_pixel bounds.north bounds.west bounds height width = (0, 0) ∧
    latlon_to_final_pixel bounds.south bounds.east bounds height width =
      ((width : ℤ), (height : ℤ)) := by
  have hml : mercator_y bounds.south < mercator_y bounds.north :=
    mercator_y_lt hs hsn hn
  have hm : mercator_y bounds.south - mercator_y bounds.north ≠ 0 :=
    sub_ne_zero_of_ne (ne_of_lt hml)
  have hew : bounds.east - bounds.west ≠ 0 :=
    sub_ne_zero_of_ne (ne_of_gt hwe)
  constructor
  · unfold latlon_to_final_pixel
    simp only [sub_self, zero_div, zero_mul, pyInt_zero]
  · unfold latlon_to_final_pixel
    simp only [div_self hew, div_self hm, one_mul, pyInt_natCast]

/-- Witness for C9 at concrete bounds `(north 31, south 29, west 121,
east 122)` and a 10 x 20 raster. -/
theorem corner_projection_witness :
    latlon_to_final_pixel boundsScenario.north boundsScenario.west boundsScenario
      10 20 = (0, 0) ∧
    latlon_to_final_pixel boundsScenario.south boundsScenario.east boundsScenario
      10 20 = (((20 : ℕ) : ℤ), ((10 : ℕ) : ℤ)) :=
  ⟨(corner_projection boundsScenario 10 20 (by norm_num [boundsScenario])
      (by norm_num [boundsScenario]) (by norm_num [boundsScenario])
      (by norm_num [boundsScenario])).1,
    (corner_projection boundsScenario 10 20 (by norm_num [boundsScenario])
      (by norm_num [boundsScenario]) (by norm_num [boundsScenario])
      (by norm_num [boundsScenario])).2⟩

end AquaChroma
